import Mathlib

/-!
Verification development for the RTM client core of `rtm_client.cpp`
(`satori::video::rtm`).

The embedding models the connection-and-request core as pure functions over an
explicit client state:

* `Json` is the in-memory PDU document tree (nlohmann::json).  nlohmann stores
  object members in a `std::map`, i.e. sorted by key, so objects are kept as
  key-sorted association lists and member assignment is a sorted insert.
* `secure_client` carries the fields of the C++ class that the modelled
  operations read or write: `_client_state`, `_channel_subscriptions`,
  `_ping_times` (nonces only; the stored timestamps feed only the latency
  histogram), `_sent_request_infos`, `_pending_requests`, `_request_in_flight`
  and the `new_request_id` counter.  In addition it carries ghost trace fields
  (`ghost_enqueued`, `ghost_dispatched`, `ghost_completed`, `ghost_outstanding`)
  that record, without influencing, what the write serializer handed to the
  transport, for stating the FIFO/in-flight invariants.
* Callbacks (`request_callbacks`, `subscription_callbacks`,
  `error_callbacks`) and subscription handles are opaque identities and are
  modelled as `Nat` tokens; invoking a callback is an emitted `action`.
* A `CHECK`/`ABORT` failure (fatal programming error) is `none`.
* Timestamps, byte counters used only as metric amounts, and histogram
  observations are elided; counter increments are emitted as
  `action.metric_incr` so their presence or absence per branch is visible.
* The CBOR codec is an external collaborator; an inbound frame event carries
  the codec's result directly (`some pdu` or decode failure `none`).
-/

namespace Rtm

/-- 2^64: request ids and the request-id counter are unsigned 64-bit. -/
def u64 : Nat := 2 ^ 64

/-- The PDU document tree (nlohmann::json subset used by the client). -/
inductive Json where
  | null
  | bool (b : Bool)
  | num (n : Nat)
  | str (s : String)
  | arr (elems : List Json)
  | obj (fields : List (String × Json))

/-- Lexicographic comparison of key characters: the `std::map<std::string,...>`
ordering that nlohmann objects use for their members. -/
def chars_lt : List Char → List Char → Bool
  | [], [] => false
  | [], _ :: _ => true
  | _ :: _, [] => false
  | a :: as, b :: bs =>
    if a.toNat < b.toNat then true
    else if b.toNat < a.toNat then false
    else chars_lt as bs

def string_lt (a b : String) : Bool := chars_lt a.data b.data

/-- Sorted-map member assignment: `document[k] = v` on a nlohmann object,
whose members live in a `std::map` ordered by key. -/
def objInsertSorted (k : String) (v : Json) : List (String × Json) → List (String × Json)
  | [] => [(k, v)]
  | (k', v') :: rest =>
    if k = k' then (k, v) :: rest
    else if string_lt k k' then (k, v) :: (k', v') :: rest
    else (k', v') :: objInsertSorted k v rest

/-- `document[k] = v` (assignment; overwrites an existing member). -/
def Json.setKey : Json → String → Json → Json
  | Json.obj fields, k, v => Json.obj (objInsertSorted k v fields)
  | j, _, _ => j

/-- Object member lookup, `document[k]` on the read side. -/
def Json.getKey : Json → String → Option Json
  | Json.obj fields, k => fields.lookup k
  | _, _ => none

/-- `document.emplace(k, v)`: inserts only when the key is absent. -/
def Json.emplaceKey : Json → String → Json → Json
  | Json.obj fields, k, v =>
    if (fields.lookup k).isSome then Json.obj fields
    else Json.obj (objInsertSorted k v fields)
  | j, _, _ => j

def Json.asStr : Json → Option String
  | Json.str s => some s
  | _ => none

def Json.asNum : Json → Option Nat
  | Json.num n => some n
  | _ => none

def Json.asArr : Json → Option (List Json)
  | Json.arr elems => some elems
  | _ => none

/-- `subscribe_request::to_json`: starts from the JSON template literal, sets
`id`, `body.channel`, `body.subscription_id`, and emplaces `history` with the
optional `age` and `count` members when either is present. -/
def subscribe_to_json (id : Nat) (channel : String) (age count : Option Nat) : Json :=
  let document := Json.obj
    [("action", Json.str "rtm/subscribe"),
     ("body", Json.obj [("channel", Json.str "<not_set>"),
                        ("subscription_id", Json.str "<not_set>")]),
     ("id", Json.num 2)]
  let document := document.setKey "id" (Json.num id)
  let body := (document.getKey "body").getD Json.null
  let body := body.setKey "channel" (Json.str channel)
  let body := body.setKey "subscription_id" (Json.str channel)
  let body :=
    if age.isSome || count.isSome then
      let history := Json.obj []
      let history := match age with
        | some a => history.emplaceKey "age" (Json.num a)
        | none => history
      let history := match count with
        | some c => history.emplaceKey "count" (Json.num c)
        | none => history
      body.emplaceKey "history" history
    else body
  document.setKey "body" body

/-- `unsubscribe_request::to_json`. -/
def unsubscribe_to_json (id : Nat) (channel : String) : Json :=
  let document := Json.obj
    [("action", Json.str "rtm/unsubscribe"),
     ("body", Json.obj [("subscription_id", Json.str "<not_set>")]),
     ("id", Json.num 2)]
  let document := document.setKey "id" (Json.num id)
  let body := (document.getKey "body").getD Json.null
  let body := body.setKey "subscription_id" (Json.str channel)
  document.setKey "body" body

/-- The publish PDU built inline in `secure_client::publish`. -/
def publish_pdu (channel : String) (message : Json) (request_id : Nat) : Json :=
  let pdu := Json.obj []
  let pdu := pdu.setKey "action" (Json.str "rtm/publish")
  let body := Json.obj []
  let body := body.setKey "channel" (Json.str channel)
  let body := body.setKey "message" message
  let pdu := pdu.setKey "body" body
  pdu.setKey "id" (Json.num request_id)

/-- `enum class client_state`. -/
inductive client_state where
  | STOPPED
  | RUNNING
  | PENDING_STOPPED
deriving Repr, DecidableEq

/-- `enum class client_error` (the user-visible error kinds). -/
inductive client_error where
  | UNKNOWN
  | NOT_CONNECTED
  | RESPONSE_PARSING_ERROR
  | INVALID_RESPONSE
  | SUBSCRIPTION_ERROR
  | SUBSCRIBE_ERROR
  | UNSUBSCRIBE_ERROR
  | ASIO_ERROR
  | INVALID_MESSAGE
  | PUBLISH_ERROR
deriving Repr, DecidableEq

/-- `enum class request_type`. -/
inductive request_type where
  | PUBLISH
  | SUBSCRIBE
  | UNSUBSCRIBE
deriving Repr, DecidableEq

/-- One entry of `subscriptions_map`'s backing list
(`subscription_details {channel, sub, callbacks}`); `sub` and `callbacks` are
the identities (addresses) of the caller-supplied handle and sink. -/
structure subscription_details where
  channel : String
  sub : Nat
  callbacks : Nat
deriving Repr, DecidableEq

/-- `subscriptions_map::add`.  The source keeps the backing list plus two hash
indexes (by channel and by handle address) which `add`/`delete_by_channel`/
`clear` keep consistent, so lookups over the backing list model both indexes.
The two `CHECK_EQ(count, 0)` assertions become `none` on violation. -/
def subs_add (m : List subscription_details) (channel : String) (sub : Nat)
    (callbacks : Nat) : Option (List subscription_details) :=
  if m.any (fun d => d.channel == channel) then none
  else if m.any (fun d => d.sub == sub) then none
  else some (m ++ [⟨channel, sub, callbacks⟩])

/-- `subscriptions_map::find_by_channel`. -/
def subs_find_by_channel (m : List subscription_details) (channel : String) :
    Option subscription_details :=
  m.find? (fun d => d.channel == channel)

/-- `subscriptions_map::find_by_sub`. -/
def subs_find_by_sub (m : List subscription_details) (sub : Nat) :
    Option subscription_details :=
  m.find? (fun d => d.sub == sub)

/-- `subscriptions_map::delete_by_channel`; the `Bool` is the source's return
value (false when the channel was absent). -/
def subs_delete_by_channel (m : List subscription_details) (channel : String) :
    List subscription_details × Bool :=
  if m.any (fun d => d.channel == channel) then
    (m.filter (fun d => !(d.channel == channel)), true)
  else (m, false)

/-- `sent_request_info` (pending-request record); `time` and `buffer_size`
feed only metrics and are elided. -/
structure sent_request_info where
  type : request_type
  channel : String
  pdu : Json
  callbacks : Option Nat

/-- `_sent_request_infos.emplace(k, v)`: the `Bool` is `insert_result.second`. -/
def infos_emplace (t : List (Nat × sent_request_info)) (k : Nat)
    (v : sent_request_info) : List (Nat × sent_request_info) × Bool :=
  if (t.lookup k).isSome then (t, false) else (t ++ [(k, v)], true)

/-- `_sent_request_infos.erase(it)` for the entry keyed `k`. -/
def infos_erase (t : List (Nat × sent_request_info)) (k : Nat) :
    List (Nat × sent_request_info) :=
  t.filter (fun p => !(p.1 == k))

/-- `io_request = boost::variant<ping_request, write_request>`.  A write
carries the request id its `handle_write` completion closure was built from
(the captured map iterator) and the PDU that was encoded into its buffer. -/
inductive io_request where
  | write (request_id : Nat) (pdu : Json)
  | ping (id : Nat)

/-- Transport / callback effects emitted by the modelled operations. -/
inductive action where
  | log (msg : String)
  | metric_incr (name : String)
  | ask_for_read
  | arm_ping_timer
  | cancel_ping_timer
  | close_socket
  | transport_write (pdu : Json)
  | transport_ping (nonce : Nat)
  | on_ok (callbacks : Nat)
  | on_req_error (callbacks : Nat) (e : client_error)
  | on_data (callbacks : Nat) (sub : Nat) (message : Json)
  | on_sub_error (callbacks : Nat) (e : client_error)
  | common_on_error (e : client_error)

def action.is_ask_for_read : action → Bool
  | action.ask_for_read => true
  | _ => false

def action.is_metric_incr : action → Bool
  | action.metric_incr _ => true
  | _ => false

def action.is_common_on_error : action → Bool
  | action.common_on_error _ => true
  | _ => false

def action.is_close_socket : action → Bool
  | action.close_socket => true
  | _ => false

def action.is_log : action → Bool
  | action.log _ => true
  | _ => false

/-- The secure client state (see the module comment for the ghost fields). -/
structure secure_client where
  _client_state : client_state
  _channel_subscriptions : List subscription_details
  _ping_times : List Nat
  _sent_request_infos : List (Nat × sent_request_info)
  _pending_requests : List io_request
  _request_in_flight : Bool
  request_id_counter : Nat
  ghost_outstanding : Option io_request
  ghost_enqueued : List io_request
  ghost_completed : List io_request
  ghost_dispatched : List io_request

/-- A freshly constructed client: `STOPPED`, empty tables, `new_request_id`
counter at its initial value 1. -/
def init_client : secure_client :=
  { _client_state := client_state.STOPPED
    _channel_subscriptions := []
    _ping_times := []
    _sent_request_infos := []
    _pending_requests := []
    _request_in_flight := false
    request_id_counter := 1
    ghost_outstanding := none
    ghost_enqueued := []
    ghost_completed := []
    ghost_dispatched := [] }

/-- `new_request_id()`: returns the current counter and post-increments it
(uint64_t arithmetic, hence the wrap at 2^64). -/
def new_request_id (c : Nat) : Nat × Nat :=
  (c, (c + 1) % u64)

/-- `_pending_requests.push(r)` (plus ghost enqueue trace). -/
def push_request (s : secure_client) (r : io_request) : secure_client :=
  { s with _pending_requests := s._pending_requests ++ [r]
           ghost_enqueued := s.ghost_enqueued ++ [r] }

/-- The transport operation a dispatched head turns into
(`operator()(write_request)` / `operator()(ping_request)`). -/
def dispatch_action : io_request → action
  | io_request.write _ pdu => action.transport_write pdu
  | io_request.ping nonce => action.transport_ping nonce

/-- `secure_client::drain_requests`: early return when the queue is empty or a
request is in flight; otherwise set the flag and hand the head (which stays in
the queue) to the transport. -/
def drain_requests (s : secure_client) : secure_client × List action :=
  if s._request_in_flight then (s, [])
  else
    match s._pending_requests with
    | [] => (s, [])
    | r :: _ =>
      ({ s with _request_in_flight := true
                ghost_outstanding := some r
                ghost_dispatched := s.ghost_dispatched ++ [r] },
       [dispatch_action r])

/-- `secure_client::write`: push then drain. -/
def client_write (s : secure_client) (request_id : Nat) (pdu : Json) :
    secure_client × List action :=
  drain_requests (push_request s (io_request.write request_id pdu))

/-- `secure_client::ping`: push then drain. -/
def client_ping (s : secure_client) (nonce : Nat) : secure_client × List action :=
  drain_requests (push_request s (io_request.ping nonce))

def req_error_kind : request_type → client_error
  | request_type.PUBLISH => client_error.PUBLISH_ERROR
  | request_type.SUBSCRIBE => client_error.SUBSCRIBE_ERROR
  | request_type.UNSUBSCRIBE => client_error.UNSUBSCRIBE_ERROR

/-- `callbacks->on_error(e)` guarded by the null check. -/
def req_error_acts (callbacks : Option Nat) (e : client_error) : List action :=
  match callbacks with
  | some c => [action.on_req_error c e]
  | none => []

/-- `callbacks->on_ok()` guarded by the null check. -/
def req_ok_acts (callbacks : Option Nat) : List action :=
  match callbacks with
  | some c => [action.on_ok c]
  | none => []

/-- Completion code of an asio operation. -/
inductive asio_ec where
  | ok
  | aborted
  | error
deriving Repr, DecidableEq

/-- `secure_client::handle_write` completion closure, acting on the pending
table: on failure it reports the kind-matched error to the per-request sink
and erases the record; on success it only bumps byte/message counters.  The
captured iterator is always valid in the source, so a missing key is `none`. -/
def handle_write (t : List (Nat × sent_request_info)) (request_id : Nat)
    (ec : asio_ec) : Option (List (Nat × sent_request_info) × List action) :=
  match t.lookup request_id with
  | none => none
  | some info =>
    if ec = asio_ec.ok then
      some (t, (if info.type = request_type.PUBLISH then
                  [action.metric_incr "rtm_messages_sent",
                   action.metric_incr "rtm_messages_bytes_sent"]
                else [])
               ++ [action.metric_incr "rtm_bytes_written"])
    else
      some (infos_erase t request_id,
            [action.log "write request failure",
             action.metric_incr "rtm_client_error_publish"]
            ++ req_error_acts info.callbacks (req_error_kind info.type))

/-- The ping request's completion closure (inside `arm_ping_timer`):
on success it records the ping metrics and re-arms the timer; errors other
than cancellation surface `ASIO_ERROR` only while `RUNNING`. -/
def ping_done_acts (st : client_state) (ec : asio_ec) : List action :=
  match ec with
  | asio_ec.ok => [action.metric_incr "rtm_pings_sent_total", action.arm_ping_timer]
  | asio_ec.aborted => [action.log "ping operation is cancelled"]
  | asio_ec.error =>
    if st = client_state.RUNNING then
      [action.log "asio error for ping operation",
       action.metric_incr "rtm_client_error_ping",
       action.common_on_error client_error.ASIO_ERROR]
    else [action.log "ignoring asio error for ping operation"]

/-- The completion closure bound to a queued request: `handle_write` for a
write (keyed by the captured request id), the ping completion for a ping. -/
def request_done_cb (s : secure_client) (r : io_request) (ec : asio_ec) :
    Option (List (Nat × sent_request_info) × List action) :=
  match r with
  | io_request.write request_id _ => handle_write s._sent_request_infos request_id ec
  | io_request.ping _ => some (s._sent_request_infos, ping_done_acts s._client_state ec)

/-- `secure_client::on_request_done`: run the front request's completion
with the transport's result, pop it, clear the flag, drain again.  The
transport only completes an operation that was dispatched, so a completion
with nothing outstanding (or an empty queue: `front()` on empty) is `none`. -/
def on_request_done (s : secure_client) (ec : asio_ec) :
    Option (secure_client × List action) :=
  match s.ghost_outstanding, s._pending_requests with
  | some _, r :: rest =>
    match request_done_cb s r ec with
    | none => none
    | some (t, acts) =>
      let s1 := { s with _sent_request_infos := t
                         _pending_requests := rest
                         _request_in_flight := false
                         ghost_outstanding := none
                         ghost_completed := s.ghost_completed ++ [r] }
      some ((drain_requests s1).1, acts ++ (drain_requests s1).2)
  | _, _ => none

/-- `secure_client::publish`: silent no-op in `PENDING_STOPPED`; fatal
(`CHECK_EQ(_client_state, RUNNING)`) in any other non-`RUNNING` state. -/
def publish (s : secure_client) (channel : String) (message : Json)
    (callbacks : Option Nat) : Option (secure_client × List action) :=
  if s._client_state = client_state.PENDING_STOPPED then
    some (s, [action.log "RTM client is pending stop"])
  else if s._client_state = client_state.RUNNING then
    let request_id := (new_request_id s.request_id_counter).1
    let pdu := publish_pdu channel message request_id
    match infos_emplace s._sent_request_infos request_id
            ⟨request_type.PUBLISH, channel, pdu, callbacks⟩ with
    | (_, false) => none
    | (t, true) =>
      some (client_write
              { s with request_id_counter := (new_request_id s.request_id_counter).2
                       _sent_request_infos := t }
              request_id pdu)
  else none

/-- `subscription_options`: the two fields of `options->history`. -/
structure subscription_options where
  age : Option Nat
  count : Option Nat
deriving Repr, DecidableEq

/-- `secure_client::subscribe`: state gate, fresh id, optimistic registry
insertion (fatal on duplicate), pending record, enqueue. -/
def subscribe (s : secure_client) (channel : String) (sub : Nat)
    (data_callbacks : Nat) (callbacks : Option Nat)
    (options : Option subscription_options) : Option (secure_client × List action) :=
  if s._client_state = client_state.PENDING_STOPPED then
    some (s, [action.log "RTM client is pending stop"])
  else if s._client_state = client_state.RUNNING then
    let request_id := (new_request_id s.request_id_counter).1
    let age := options.bind (fun o => o.age)
    let count := options.bind (fun o => o.count)
    match subs_add s._channel_subscriptions channel sub data_callbacks with
    | none => none
    | some m =>
      let pdu := subscribe_to_json request_id channel age count
      match infos_emplace s._sent_request_infos request_id
              ⟨request_type.SUBSCRIBE, channel, pdu, callbacks⟩ with
      | (_, false) => none
      | (t, true) =>
        some (client_write
                { s with request_id_counter := (new_request_id s.request_id_counter).2
                         _channel_subscriptions := m
                         _sent_request_infos := t }
                request_id pdu)
  else none

/-- `secure_client::unsubscribe`: state gate, handle lookup (fatal when
absent), fresh id, pending record, enqueue.  The registry entry is retained. -/
def unsubscribe (s : secure_client) (sub : Nat) (callbacks : Option Nat) :
    Option (secure_client × List action) :=
  if s._client_state = client_state.PENDING_STOPPED then
    some (s, [action.log "RTM client is pending stop"])
  else if s._client_state = client_state.RUNNING then
    match subs_find_by_sub s._channel_subscriptions sub with
    | none => none
    | some found =>
      let request_id := (new_request_id s.request_id_counter).1
      let pdu := unsubscribe_to_json request_id found.channel
      match infos_emplace s._sent_request_infos request_id
              ⟨request_type.UNSUBSCRIBE, found.channel, pdu, callbacks⟩ with
      | (_, false) => none
      | (t, true) =>
        some (client_write
                { s with request_id_counter := (new_request_id s.request_id_counter).2
                         _sent_request_infos := t }
                request_id pdu)
  else none

/-- `secure_client::start`, with every transport substep succeeding
(`CHECK_EQ(_client_state, STOPPED)` on entry). -/
def start (s : secure_client) : Option (secure_client × List action) :=
  if s._client_state = client_state.STOPPED then
    some ({ s with _client_state := client_state.RUNNING },
          [action.log "Starting secure RTM client",
           action.metric_incr "rtm_client_start",
           action.arm_ping_timer, action.ask_for_read])
  else none

/-- `secure_client::stop`, with timer cancel and socket close succeeding
(`CHECK_EQ(_client_state, RUNNING)` on entry). -/
def stop (s : secure_client) : Option (secure_client × List action) :=
  if s._client_state = client_state.RUNNING then
    some ({ s with _client_state := client_state.PENDING_STOPPED },
          [action.log "Stopping secure RTM client",
           action.cancel_ping_timer, action.close_socket])
  else none

/-- The ping timer firing successfully: allocate a nonce, record it in
`_ping_times`, enqueue the ping. -/
def ping_timer_fire (s : secure_client) : secure_client × List action :=
  let request_id := (new_request_id s.request_id_counter).1
  client_ping
    { s with request_id_counter := (new_request_id s.request_id_counter).2
             _ping_times := s._ping_times ++ [request_id] }
    request_id

/-- The two tables `process_input` reads and writes. -/
abbrev tables := List subscription_details × List (Nat × sent_request_info)

/-- `secure_client::process_request_confirmation`: `CHECK` id present in the
PDU and known in the pending table. -/
def process_request_confirmation (t : List (Nat × sent_request_info)) (pdu : Json) :
    Option (Nat × sent_request_info) :=
  match (pdu.getKey "id").bind Json.asNum with
  | none => none
  | some id =>
    match t.lookup id with
    | none => none
    | some info => some (id, info)

/-- `secure_client::process_subscription_pdu`: `CHECK` body and
subscription_id present and the channel registered. -/
def process_subscription_pdu (m : List subscription_details) (pdu : Json) :
    Option (subscription_details × Json) :=
  match pdu.getKey "body" with
  | none => none
  | some body =>
    match (body.getKey "subscription_id").bind Json.asStr with
    | none => none
    | some channel =>
      match subs_find_by_channel m channel with
      | none => none
      | some found => some (found, body)

/-- `secure_client::process_input`, classifying an inbound PDU by `action`.
The source reads `it->second.channel` for the terminal deletes; the model
captures the record before erasing it.  `/error` and unknown actions abort. -/
def process_input (tb : tables) (pdu : Json) : Option (tables × List action) :=
  match (pdu.getKey "action").bind Json.asStr with
  | none => none
  | some act =>
    let received := action.metric_incr "rtm_actions_received"
    if act = "rtm/subscription/data" then
      match process_subscription_pdu tb.1 pdu with
      | none => none
      | some (sub_info, body) =>
        match (body.getKey "messages").bind Json.asArr with
        | none => none
        | some messages =>
          some (tb,
            received :: action.metric_incr "rtm_messages_received"
              :: action.metric_incr "rtm_messages_bytes_received"
              :: messages.map (fun m => action.on_data sub_info.callbacks sub_info.sub m))
    else if act = "rtm/subscription/error" then
      match process_subscription_pdu tb.1 pdu with
      | none => none
      | some (sub_info, _) =>
        some (tb,
          [received, action.log "subscription error",
           action.metric_incr "rtm_subscription_error_total",
           action.on_sub_error sub_info.callbacks client_error.SUBSCRIPTION_ERROR])
    else if act = "rtm/publish/ok" then
      match process_request_confirmation tb.2 pdu with
      | none => none
      | some (id, info) =>
        some ((tb.1, infos_erase tb.2 id), received :: req_ok_acts info.callbacks)
    else if act = "rtm/publish/error" then
      match process_request_confirmation tb.2 pdu with
      | none => none
      | some (id, info) =>
        some ((tb.1, infos_erase tb.2 id),
          [received, action.log "got publish error",
           action.metric_incr "rtm_publish_error_total"]
          ++ req_error_acts info.callbacks client_error.PUBLISH_ERROR)
    else if act = "rtm/subscribe/ok" then
      match process_request_confirmation tb.2 pdu with
      | none => none
      | some (id, info) =>
        some ((tb.1, infos_erase tb.2 id), received :: req_ok_acts info.callbacks)
    else if act = "rtm/subscribe/error" then
      match process_request_confirmation tb.2 pdu with
      | none => none
      | some (id, info) =>
        match subs_delete_by_channel tb.1 info.channel with
        | (_, false) => none
        | (m, true) =>
          some ((m, infos_erase tb.2 id),
            [received, action.log "got subscribe error",
             action.metric_incr "rtm_subscribe_error_total"]
            ++ req_error_acts info.callbacks client_error.SUBSCRIBE_ERROR)
    else if act = "rtm/unsubscribe/ok" then
      match process_request_confirmation tb.2 pdu with
      | none => none
      | some (id, info) =>
        match subs_delete_by_channel tb.1 info.channel with
        | (_, false) => none
        | (m, true) =>
          some ((m, infos_erase tb.2 id), received :: req_ok_acts info.callbacks)
    else if act = "rtm/unsubscribe/error" then
      match process_request_confirmation tb.2 pdu with
      | none => none
      | some (id, info) =>
        match subs_delete_by_channel tb.1 info.channel with
        | (_, false) => none
        | (m, true) =>
          some ((m, infos_erase tb.2 id),
            [received, action.log "got unsubscribe error",
             action.metric_incr "rtm_unsubscribe_error_total"]
            ++ req_error_acts info.callbacks client_error.UNSUBSCRIBE_ERROR)
    else none

/-- Outcome of one `async_read`: cancellation, another asio error, or a frame
whose bytes either decode to a PDU or fail to decode (`cbor_to_json` result). -/
inductive read_result where
  | cancelled
  | asio_error
  | frame (decoded : Option Json)

/-- The actions of the decode-failure branch of the read handler: the
byte counter was already bumped, then only an error log; no parse-error
counter is touched, no new read is posted, nothing is torn down. -/
def bad_frame_acts : List action :=
  [action.metric_incr "rtm_bytes_read",
   action.log "CBOR message could not be processed"]

/-- The completion handler posted by `secure_client::ask_for_read`:
cancellation finishes the `stop()` sequence (fatal unless `PENDING_STOPPED`),
other errors surface `ASIO_ERROR` only while `RUNNING`, a decode failure is
logged and dropped, and a decoded PDU is dispatched before posting the next
read. -/
def on_read (s : secure_client) (r : read_result) :
    Option (secure_client × List action) :=
  match r with
  | read_result.cancelled =>
    if s._client_state = client_state.PENDING_STOPPED then
      some ({ s with _client_state := client_state.STOPPED
                     _channel_subscriptions := [] },
            [action.log "async_read operation is cancelled"])
    else none
  | read_result.asio_error =>
    if s._client_state = client_state.RUNNING then
      some (s, [action.metric_incr "rtm_client_error_read",
                action.log "asio error",
                action.common_on_error client_error.ASIO_ERROR])
    else some (s, [action.log "ignoring asio error"])
  | read_result.frame none => some (s, bad_frame_acts)
  | read_result.frame (some pdu) =>
    match process_input (s._channel_subscriptions, s._sent_request_infos) pdu with
    | none => none
    | some (tb, acts) =>
      some ({ s with _channel_subscriptions := tb.1
                     _sent_request_infos := tb.2 },
            action.metric_incr "rtm_bytes_read" :: acts ++ [action.ask_for_read])

/-- Events delivered to the client by callers and by the event loop. -/
inductive event where
  | start
  | stop
  | publish (channel : String) (message : Json) (callbacks : Option Nat)
  | subscribe (channel : String) (sub : Nat) (data_callbacks : Nat)
              (callbacks : Option Nat) (options : Option subscription_options)
  | unsubscribe (sub : Nat) (callbacks : Option Nat)
  | read (r : read_result)
  | request_done (ec : asio_ec)
  | ping_timer

def step (s : secure_client) : event → Option (secure_client × List action)
  | event.start => start s
  | event.stop => stop s
  | event.publish channel message callbacks => publish s channel message callbacks
  | event.subscribe channel sub data_callbacks callbacks options =>
    subscribe s channel sub data_callbacks callbacks options
  | event.unsubscribe sub callbacks => unsubscribe s sub callbacks
  | event.read r => on_read s r
  | event.request_done ec => on_request_done s ec
  | event.ping_timer => some (ping_timer_fire s)

/-- Run a sequence of events from a state, collecting the emitted actions. -/
def run : secure_client → List event → Option (secure_client × List action)
  | s, [] => some (s, [])
  | s, e :: es =>
    match step s e with
    | none => none
    | some (s1, a1) =>
      match run s1 es with
      | none => none
      | some (s2, a2) => some (s2, a1 ++ a2)

/-- Ids produced by `k` consecutive `new_request_id()` calls starting from
counter value `c`. -/
def alloc_ids : Nat → Nat → List Nat
  | _, 0 => []
  | c, k + 1 => (new_request_id c).1 :: alloc_ids (new_request_id c).2 k

/-! ## The resilient client

`resilient_client` wraps an inner client behind a factory.  The inner client
and the factory are external, so inner-client calls are emitted as `raction`s.
One `subscription_info` is an entry of the `_subscriptions` desired list. -/

/-- `resilient_client::subscription_info`. -/
structure subscription_info where
  channel : String
  sub : Nat
  data_callbacks : Nat
  callbacks : Option Nat
  options : Option subscription_options
deriving Repr, DecidableEq

/-- One slot of the desired-subscription vector.  `moved_from` is a
valid-but-unspecified element left behind by `std::remove_if` (whose result
the source discards without erasing, so the vector never shrinks). -/
inductive sub_slot where
  | val (si : subscription_info)
  | moved_from
deriving Repr, DecidableEq

/-- `std::remove_if` with its returned iterator discarded and no `erase`:
the kept (non-matching) elements are compacted to the front in order, the
length is unchanged, and every slot past the kept region holds either an
untouched matching element or a moved-from value. -/
def cpp_remove_if_discarded (p : sub_slot → Bool) (xs : List sub_slot) :
    List sub_slot :=
  let kept := xs.filter (fun x => !(p x))
  kept ++ (xs.drop kept.length).map (fun x => if p x then x else sub_slot.moved_from)

/-- The `remove_if` predicate of `resilient_client::unsubscribe`
(`&sub == si.sub`): a moved-from slot's handle field is unspecified and is
never the live handle being removed. -/
def remove_if_pred (sub : Nat) : sub_slot → Bool
  | sub_slot.val si => si.sub == sub
  | sub_slot.moved_from => false

/-- Effects the resilient client has on its collaborators. -/
inductive raction where
  | log (msg : String)
  | create_client
  | start_client
  | inner_publish (channel : String)
  | inner_subscribe (channel : String) (sub : Nat)
  | inner_subscribe_moved
  | inner_unsubscribe (sub : Nat)
  | outer_on_error
deriving Repr, DecidableEq

def raction.is_subscribe_act : raction → Bool
  | raction.inner_subscribe _ _ => true
  | raction.inner_subscribe_moved => true
  | _ => false

/-- `resilient_client` state: `_started` and the `_subscriptions` list. -/
structure resilient_client where
  _started : Bool
  _subscriptions : List sub_slot
deriving Repr, DecidableEq

/-- `resilient_client::subscribe`: append to the desired list, forward. -/
def resilient_subscribe (r : resilient_client) (channel : String) (sub : Nat)
    (data_callbacks : Nat) (callbacks : Option Nat)
    (options : Option subscription_options) : resilient_client × List raction :=
  ({ r with _subscriptions :=
      r._subscriptions ++ [sub_slot.val ⟨channel, sub, data_callbacks, callbacks, options⟩] },
   [raction.inner_subscribe channel sub])

/-- `resilient_client::unsubscribe`: forward, then run `std::remove_if` over
the desired list — discarding its result, as the source does. -/
def resilient_unsubscribe (r : resilient_client) (sub : Nat)
    (_callbacks : Option Nat) : resilient_client × List raction :=
  ({ r with _subscriptions :=
      cpp_remove_if_discarded (remove_if_pred sub) r._subscriptions },
   [raction.inner_unsubscribe sub])

/-- The replay a restart performs for one desired-list slot
(`_client->subscribe(sub.channel, *sub.sub, ...)`); replaying a moved-from
slot passes its unspecified fields through. -/
def replay_slot : sub_slot → raction
  | sub_slot.val si => raction.inner_subscribe si.channel si.sub
  | sub_slot.moved_from => raction.inner_subscribe_moved

/-- `resilient_client::restart`: build a fresh inner client; when `_started`,
start it (`start_ok` is the inner `start()`'s success), and on success replay
every desired-list entry in order; on failure surface the error outward. -/
def restart (r : resilient_client) (start_ok : Bool) :
    resilient_client × List raction :=
  let created := [raction.log "creating new client", raction.create_client]
  if r._started = false then (r, created)
  else if start_ok then
    (r, created
        ++ [raction.log "starting new client", raction.start_client,
            raction.log "restoring subscriptions"]
        ++ r._subscriptions.map replay_slot
        ++ [raction.log "client restart done"])
  else
    (r, created
        ++ [raction.log "starting new client", raction.start_client,
            raction.log "cannot restart client", raction.outer_on_error])

/-- `resilient_client::on_error`: log and restart. -/
def resilient_on_error (r : resilient_client) (start_ok : Bool) :
    resilient_client × List raction :=
  ((restart r start_ok).1,
   raction.log "restarting rtm client because of error" :: (restart r start_ok).2)

/-! ## Write-serializer ghost invariant -/

/-- The serializer invariant tying `_request_in_flight`, the queue, and the
ghost traces together: the flag is set iff an operation is outstanding, the
outstanding operation is bound to the queue head, everything enqueued is the
completed requests followed by the live queue, and everything dispatched is
the completed requests followed by the outstanding one. -/
def ser_inv (s : secure_client) : Prop :=
  s._request_in_flight = s.ghost_outstanding.isSome
  ∧ s.ghost_enqueued = s.ghost_completed ++ s._pending_requests
  ∧ s.ghost_dispatched = s.ghost_completed ++ s.ghost_outstanding.toList
  ∧ ∀ r, s.ghost_outstanding = some r → s._pending_requests.head? = some r

lemma ser_inv_init : ser_inv init_client := by
  refine ⟨rfl, rfl, rfl, ?_⟩
  intro r h
  simp [init_client] at h

lemma ser_inv_of_fields (s s' : secure_client)
    (hp : s'._pending_requests = s._pending_requests)
    (hf : s'._request_in_flight = s._request_in_flight)
    (ho : s'.ghost_outstanding = s.ghost_outstanding)
    (he : s'.ghost_enqueued = s.ghost_enqueued)
    (hc : s'.ghost_completed = s.ghost_completed)
    (hd : s'.ghost_dispatched = s.ghost_dispatched)
    (h : ser_inv s) : ser_inv s' := by
  obtain ⟨h1, h2, h3, h4⟩ := h
  refine ⟨?_, ?_, ?_, ?_⟩
  · rw [hf, ho]; exact h1
  · rw [he, hc, hp]; exact h2
  · rw [hd, hc, ho]; exact h3
  · intro r hr
    rw [ho] at hr
    rw [hp]
    exact h4 r hr

lemma push_request_ser_inv (s : secure_client) (r : io_request)
    (h : ser_inv s) : ser_inv (push_request s r) := by
  obtain ⟨h1, h2, h3, h4⟩ := h
  refine ⟨h1, ?_, h3, ?_⟩
  · simp only [push_request, h2, List.append_assoc]
  · intro r0 hr0
    simp only [push_request] at hr0 ⊢
    have hh := h4 r0 hr0
    cases hp : s._pending_requests with
    | nil => rw [hp] at hh; simp at hh
    | cons a l =>
      rw [hp] at hh
      simpa using hh

lemma drain_requests_ser_inv (s : secure_client) (h : ser_inv s) :
    ser_inv (drain_requests s).1 := by
  obtain ⟨h1, h2, h3, h4⟩ := h
  unfold drain_requests
  split
  · exact ⟨h1, h2, h3, h4⟩
  · rename_i hf
    split
    · exact ⟨h1, h2, h3, h4⟩
    · rename_i r rest hp
      have hout : s.ghost_outstanding = none := by
        cases ho : s.ghost_outstanding with
        | none => rfl
        | some r0 =>
          rw [ho] at h1
          simp at h1
          exact absurd h1 hf
      refine ⟨by simp, by simpa using h2, ?_, ?_⟩
      · simp only []
        rw [h3, hout]
        simp
      · intro r0 hr0
        simp only [Option.some.injEq] at hr0
        simp [hp, ← hr0]

/-- `drain_requests` only touches the in-flight flag and the ghost dispatch
bookkeeping; every other field is unchanged. -/
lemma drain_requests_fields (s : secure_client) :
    (drain_requests s).1._client_state = s._client_state
    ∧ (drain_requests s).1._channel_subscriptions = s._channel_subscriptions
    ∧ (drain_requests s).1._ping_times = s._ping_times
    ∧ (drain_requests s).1._sent_request_infos = s._sent_request_infos
    ∧ (drain_requests s).1._pending_requests = s._pending_requests
    ∧ (drain_requests s).1.request_id_counter = s.request_id_counter
    ∧ (drain_requests s).1.ghost_enqueued = s.ghost_enqueued
    ∧ (drain_requests s).1.ghost_completed = s.ghost_completed := by
  unfold drain_requests
  split
  · exact ⟨rfl, rfl, rfl, rfl, rfl, rfl, rfl, rfl⟩
  · split <;> exact ⟨rfl, rfl, rfl, rfl, rfl, rfl, rfl, rfl⟩

lemma publish_ser_inv (s : secure_client) (channel : String) (message : Json)
    (callbacks : Option Nat) (p : secure_client × List action)
    (h : ser_inv s) (he : publish s channel message callbacks = some p) :
    ser_inv p.1 := by
  unfold publish at he
  dsimp only [] at he
  split at he
  · simp only [Option.some.injEq] at he
    rw [← he]
    exact h
  · split at he
    · split at he
      · exact absurd he (by simp)
      · simp only [Option.some.injEq] at he
        rw [← he]
        unfold client_write
        exact drain_requests_ser_inv _ (push_request_ser_inv _ _
          (ser_inv_of_fields _ _ rfl rfl rfl rfl rfl rfl h))
    · exact absurd he (by simp)

lemma subscribe_ser_inv (s : secure_client) (channel : String) (sub : Nat)
    (data_callbacks : Nat) (callbacks : Option Nat)
    (options : Option subscription_options) (p : secure_client × List action)
    (h : ser_inv s)
    (he : subscribe s channel sub data_callbacks callbacks options = some p) :
    ser_inv p.1 := by
  unfold subscribe at he
  dsimp only [] at he
  split at he
  · simp only [Option.some.injEq] at he
    rw [← he]
    exact h
  · split at he
    · split at he
      · exact absurd he (by simp)
      · split at he
        · exact absurd he (by simp)
        · simp only [Option.some.injEq] at he
          rw [← he]
          unfold client_write
          exact drain_requests_ser_inv _ (push_request_ser_inv _ _
            (ser_inv_of_fields _ _ rfl rfl rfl rfl rfl rfl h))
    · exact absurd he (by simp)

lemma unsubscribe_ser_inv (s : secure_client) (sub : Nat) (callbacks : Option Nat)
    (p : secure_client × List action) (h : ser_inv s)
    (he : unsubscribe s sub callbacks = some p) : ser_inv p.1 := by
  unfold unsubscribe at he
  dsimp only [] at he
  split at he
  · simp only [Option.some.injEq] at he
    rw [← he]
    exact h
  · split at he
    · split at he
      · exact absurd he (by simp)
      · split at he
        · exact absurd he (by simp)
        · simp only [Option.some.injEq] at he
          rw [← he]
          unfold client_write
          exact drain_requests_ser_inv _ (push_request_ser_inv _ _
            (ser_inv_of_fields _ _ rfl rfl rfl rfl rfl rfl h))
    · exact absurd he (by simp)

lemma on_read_ser_inv (s : secure_client) (r : read_result)
    (p : secure_client × List action) (h : ser_inv s)
    (he : on_read s r = some p) : ser_inv p.1 := by
  cases r with
  | cancelled =>
    simp only [on_read] at he
    split at he
    · simp only [Option.some.injEq] at he
      rw [← he]
      exact ser_inv_of_fields _ _ rfl rfl rfl rfl rfl rfl h
    · exact absurd he (by simp)
  | asio_error =>
    simp only [on_read] at he
    split at he
    all_goals
      simp only [Option.some.injEq] at he
      rw [← he]
      exact h
  | frame decoded =>
    cases decoded with
    | none =>
      simp only [on_read] at he
      simp only [Option.some.injEq] at he
      rw [← he]
      exact h
    | some pdu =>
      simp only [on_read] at he
      split at he
      · exact absurd he (by simp)
      · simp only [Option.some.injEq] at he
        rw [← he]
        exact ser_inv_of_fields _ _ rfl rfl rfl rfl rfl rfl h

lemma on_request_done_ser_inv (s : secure_client) (ec : asio_ec)
    (p : secure_client × List action) (h : ser_inv s)
    (he : on_request_done s ec = some p) : ser_inv p.1 := by
  obtain ⟨h1, h2, h3, h4⟩ := h
  unfold on_request_done at he
  split at he
  · rename_i val r rest ho hp
    split at he
    · exact absurd he (by simp)
    · simp only [Option.some.injEq] at he
      rw [← he]
      apply drain_requests_ser_inv
      have hval : val = r := by
        have hhead := h4 val ho
        rw [hp] at hhead
        simpa using hhead.symm
      refine ⟨by simp, ?_, ?_, ?_⟩
      · show s.ghost_enqueued = s.ghost_completed ++ [r] ++ rest
        rw [h2, hp]
        simp
      · show s.ghost_dispatched = s.ghost_completed ++ [r] ++ Option.toList none
        rw [h3, ho, hval]
        simp
      · intro r1 hr1
        simp at hr1
  · exact absurd he (by simp)

lemma ping_timer_fire_ser_inv (s : secure_client) (h : ser_inv s) :
    ser_inv (ping_timer_fire s).1 := by
  unfold ping_timer_fire client_ping
  exact drain_requests_ser_inv _ (push_request_ser_inv _ _
    (ser_inv_of_fields _ _ rfl rfl rfl rfl rfl rfl h))

lemma step_ser_inv (s : secure_client) (e : event)
    (p : secure_client × List action) (h : ser_inv s)
    (he : step s e = some p) : ser_inv p.1 := by
  cases e with
  | start =>
    simp only [step] at he
    unfold start at he
    split at he
    · simp only [Option.some.injEq] at he
      rw [← he]
      exact ser_inv_of_fields _ _ rfl rfl rfl rfl rfl rfl h
    · exact absurd he (by simp)
  | stop =>
    simp only [step] at he
    unfold stop at he
    split at he
    · simp only [Option.some.injEq] at he
      rw [← he]
      exact ser_inv_of_fields _ _ rfl rfl rfl rfl rfl rfl h
    · exact absurd he (by simp)
  | publish channel message callbacks =>
    exact publish_ser_inv s channel message callbacks p h he
  | subscribe channel sub data_callbacks callbacks options =>
    exact subscribe_ser_inv s channel sub data_callbacks callbacks options p h he
  | unsubscribe sub callbacks => exact unsubscribe_ser_inv s sub callbacks p h he
  | read r => exact on_read_ser_inv s r p h he
  | request_done ec => exact on_request_done_ser_inv s ec p h he
  | ping_timer =>
    simp only [step] at he
    simp only [Option.some.injEq] at he
    rw [← he]
    exact ping_timer_fire_ser_inv s h

lemma run_ser_inv (es : List event) : ∀ (s : secure_client), ser_inv s →
    ∀ p, run s es = some p → ser_inv p.1 := by
  induction es with
  | nil =>
    intro s hs p h
    unfold run at h
    simp only [Option.some.injEq] at h
    rw [← h]
    exact hs
  | cons e es ih =>
    intro s hs p h
    unfold run at h
    split at h
    · exact absurd h (by simp)
    · rename_i s1 a1 hstep
      split at h
      · exact absurd h (by simp)
      · rename_i s2 a2 hrun
        simp only [Option.some.injEq] at h
        rw [← h]
        exact ih s1 (step_ser_inv s e (s1, a1) hs hstep) (s2, a2) hrun

/-! ## Claim theorems -/

/-- A concrete freshly started (`RUNNING`) client with empty tables. -/
def running_client : secure_client :=
  { init_client with _client_state := client_state.RUNNING }

/-- C1, counterexample: at a concrete `RUNNING` client, a frame whose bytes
fail to decode produces exactly a byte-counter bump and an error log — the
handler does not increment any parse-error counter and does not post another
read (`action.ask_for_read` is absent), contrary to the claim that it
increments the counter and continues the read loop. -/
theorem C1_counterexample :
    on_read running_client (read_result.frame none) = some (running_client, bad_frame_acts)
    ∧ bad_frame_acts.any action.is_ask_for_read = false
    ∧ bad_frame_acts.filter action.is_metric_incr
        = [action.metric_incr "rtm_bytes_read"] :=
  ⟨rfl, rfl, rfl⟩

/-- C1, amended: on a decode failure the client logs the failure and drops the
frame without tearing down the connection (state and tables unchanged, no
socket close) and without surfacing an error; but it increments no parse-error
counter (only the byte counter bumped before decoding) and does not post
another read, so the read loop halts. -/
theorem C1_theorem (s : secure_client) :
    on_read s (read_result.frame none) = some (s, bad_frame_acts)
    ∧ bad_frame_acts.any action.is_log = true
    ∧ bad_frame_acts.any action.is_ask_for_read = false
    ∧ bad_frame_acts.any action.is_common_on_error = false
    ∧ bad_frame_acts.any action.is_close_socket = false
    ∧ bad_frame_acts.filter action.is_metric_incr
        = [action.metric_incr "rtm_bytes_read"] :=
  ⟨rfl, rfl, rfl, rfl, rfl, rfl⟩

/-- The desired-list entry for channel `"a"` with handle identity 1. -/
def c2_sub : subscription_info :=
  { channel := "a", sub := 1, data_callbacks := 10, callbacks := none, options := none }

/-- A started resilient client whose desired list holds exactly `c2_sub`. -/
def c2_client : resilient_client :=
  { _started := true, _subscriptions := [sub_slot.val c2_sub] }

/-- C2, the code bug at a concrete input: `resilient_client::unsubscribe`
forwards to the inner client but discards the `std::remove_if` result without
erasing, so the desired list still holds the unsubscribed entry, and a
subsequent successful restart replays `subscribe("a")` — the claim's promised
removal (and the absent re-subscription) does not happen. -/
theorem C2_theorem :
    (resilient_unsubscribe c2_client 1 none).2 = [raction.inner_unsubscribe 1]
    ∧ (resilient_unsubscribe c2_client 1 none).1._subscriptions
        = [sub_slot.val c2_sub]
    ∧ ((restart (resilient_unsubscribe c2_client 1 none).1 true).2.any
        (fun a => a == raction.inner_subscribe "a" 1)) = true :=
  ⟨rfl, by decide, by decide⟩

/-- Events reaching a `RUNNING` state with a pending publish record, a live
ping nonce, and a queued (in-flight) ping, then `stop()` and the cancelled
read. -/
def c3_events : List event :=
  [event.start,
   event.publish "t" (Json.num 42) none,
   event.request_done asio_ec.ok,
   event.ping_timer,
   event.stop,
   event.read read_result.cancelled]

/-- C3, counterexample: after `stop()` and the cancellation-completing read on
a reachable `RUNNING` state, the client is `STOPPED` and the subscription
registry is empty, but the pending-request table, the ping table and the
outbound queue each still hold one entry — not all internal tables are empty
as claimed. -/
theorem C3_counterexample :
    (run init_client c3_events).map
        (fun p => (p.1._client_state, p.1._channel_subscriptions.length,
                   p.1._sent_request_infos.length, p.1._ping_times.length,
                   p.1._pending_requests.length))
      = some (client_state.STOPPED, 0, 1, 1, 1) := by
  rfl

/-- C3, amended: after `stop()` in `RUNNING` and the read completing with the
cancellation code, the state is `STOPPED` and the subscription registry is
cleared; the pending-request table, the ping table and the outbound request
queue are left exactly as they were (and hence may be nonempty). -/
theorem C3_theorem (s : secure_client)
    (h : s._client_state = client_state.RUNNING) :
    stop s = some ({ s with _client_state := client_state.PENDING_STOPPED },
                   [action.log "Stopping secure RTM client",
                    action.cancel_ping_timer, action.close_socket])
    ∧ on_read { s with _client_state := client_state.PENDING_STOPPED }
        read_result.cancelled
      = some ({ s with _client_state := client_state.STOPPED,
                       _channel_subscriptions := [] },
              [action.log "async_read operation is cancelled"]) := by
  constructor
  · unfold stop
    rw [if_pos h]
  · rfl

/-- C3 witness: the amended statement instantiated at a concrete `RUNNING`
client. -/
theorem C3_witness :
    stop running_client = some ({ running_client with _client_state := client_state.PENDING_STOPPED },
                   [action.log "Stopping secure RTM client",
                    action.cancel_ping_timer, action.close_socket])
    ∧ on_read { running_client with _client_state := client_state.PENDING_STOPPED }
        read_result.cancelled
      = some ({ running_client with _client_state := client_state.STOPPED,
                                    _channel_subscriptions := [] },
              [action.log "async_read operation is cancelled"]) :=
  C3_theorem running_client rfl

/-- A terminal confirmation PDU carrying exactly the fields the terminal
dispatch branches read (`action` and `id`). -/
def terminal_pdu (act : String) (id : Nat) : Json :=
  Json.obj [("action", Json.str act), ("id", Json.num id)]

/-- C4: for a terminal `rtm/subscribe/error`, `rtm/unsubscribe/ok` or
`rtm/unsubscribe/error` PDU whose id is pending for channel `info.channel`
(registered in the registry, so the `delete_by_channel` CHECK passes),
`process_input` invokes the per-request sink (`on_error` with the matching
kind, or `on_ok`), erases the pending-request record, and deletes the
subscription record for that channel. -/
theorem C4_theorem :
    (∀ (tb : tables) (n : Nat) (info : sent_request_info),
       tb.2.lookup n = some info →
       (subs_delete_by_channel tb.1 info.channel).2 = true →
       process_input tb (terminal_pdu "rtm/subscribe/error" n)
         = some (((subs_delete_by_channel tb.1 info.channel).1, infos_erase tb.2 n),
                 [action.metric_incr "rtm_actions_received",
                  action.log "got subscribe error",
                  action.metric_incr "rtm_subscribe_error_total"]
                 ++ req_error_acts info.callbacks client_error.SUBSCRIBE_ERROR))
    ∧ (∀ (tb : tables) (n : Nat) (info : sent_request_info),
       tb.2.lookup n = some info →
       (subs_delete_by_channel tb.1 info.channel).2 = true →
       process_input tb (terminal_pdu "rtm/unsubscribe/ok" n)
         = some (((subs_delete_by_channel tb.1 info.channel).1, infos_erase tb.2 n),
                 action.metric_incr "rtm_actions_received"
                   :: req_ok_acts info.callbacks))
    ∧ (∀ (tb : tables) (n : Nat) (info : sent_request_info),
       tb.2.lookup n = some info →
       (subs_delete_by_channel tb.1 info.channel).2 = true →
       process_input tb (terminal_pdu "rtm/unsubscribe/error" n)
         = some (((subs_delete_by_channel tb.1 info.channel).1, infos_erase tb.2 n),
                 [action.metric_incr "rtm_actions_received",
                  action.log "got unsubscribe error",
                  action.metric_incr "rtm_unsubscribe_error_total"]
                 ++ req_error_acts info.callbacks client_error.UNSUBSCRIBE_ERROR)) := by
  refine ⟨?_, ?_, ?_⟩ <;>
    · intro tb n info h1 h2
      rcases hd : subs_delete_by_channel tb.1 info.channel with ⟨m, b⟩
      rw [hd] at h2
      simp only at h2
      subst h2
      simp [process_input, process_request_confirmation, terminal_pdu, Json.getKey,
            Json.asStr, Json.asNum, List.lookup, h1, hd]

/-- Concrete tables for the C4 witness: channel `"c"` registered, three
pending requests for it. -/
def c4_tb : tables :=
  ([⟨"c", 1, 10⟩],
   [(5, ⟨request_type.SUBSCRIBE, "c", Json.null, some 42⟩),
    (6, ⟨request_type.UNSUBSCRIBE, "c", Json.null, none⟩),
    (7, ⟨request_type.UNSUBSCRIBE, "c", Json.null, some 43⟩)])

/-- C4 witness: the three terminal branches instantiated on `c4_tb`. -/
theorem C4_witness :
    process_input c4_tb (terminal_pdu "rtm/subscribe/error" 5)
      = some (((subs_delete_by_channel c4_tb.1 "c").1, infos_erase c4_tb.2 5),
              [action.metric_incr "rtm_actions_received",
               action.log "got subscribe error",
               action.metric_incr "rtm_subscribe_error_total"]
              ++ req_error_acts (some 42) client_error.SUBSCRIBE_ERROR)
    ∧ process_input c4_tb (terminal_pdu "rtm/unsubscribe/ok" 6)
      = some (((subs_delete_by_channel c4_tb.1 "c").1, infos_erase c4_tb.2 6),
              action.metric_incr "rtm_actions_received" :: req_ok_acts none)
    ∧ process_input c4_tb (terminal_pdu "rtm/unsubscribe/error" 7)
      = some (((subs_delete_by_channel c4_tb.1 "c").1, infos_erase c4_tb.2 7),
              [action.metric_incr "rtm_actions_received",
               action.log "got unsubscribe error",
               action.metric_incr "rtm_unsubscribe_error_total"]
              ++ req_error_acts (some 43) client_error.UNSUBSCRIBE_ERROR) :=
  ⟨C4_theorem.1 c4_tb 5 ⟨request_type.SUBSCRIBE, "c", Json.null, some 42⟩ rfl rfl,
   C4_theorem.2.1 c4_tb 6 ⟨request_type.UNSUBSCRIBE, "c", Json.null, none⟩ rfl rfl,
   C4_theorem.2.2 c4_tb 7 ⟨request_type.UNSUBSCRIBE, "c", Json.null, some 43⟩ rfl rfl⟩

/-- C5: over every event sequence from a fresh client, the write serializer
hands requests to the transport in exactly the FIFO enqueue order (the
dispatched trace is an initial segment of the enqueued trace), at most one
request is outstanding (`ghost_outstanding` is an `Option`), and
`_request_in_flight` is true iff the head of the outbound queue is bound to
the outstanding transport operation; completions pop the head, invoke its
sink, clear the flag and dispatch the next head (`on_request_done`). -/
theorem C5_theorem (es : List event) (p : secure_client × List action)
    (h : run init_client es = some p) :
    (∃ rest, p.1.ghost_enqueued = p.1.ghost_dispatched ++ rest)
    ∧ (p.1._request_in_flight = true ↔
        ∃ r, p.1.ghost_outstanding = some r ∧ p.1._pending_requests.head? = some r)
    ∧ p.1.ghost_enqueued = p.1.ghost_completed ++ p.1._pending_requests
    ∧ p.1.ghost_dispatched = p.1.ghost_completed ++ p.1.ghost_outstanding.toList := by
  obtain ⟨h1, h2, h3, h4⟩ := run_ser_inv es init_client ser_inv_init p h
  refine ⟨?_, ?_, h2, h3⟩
  · cases ho : p.1.ghost_outstanding with
    | none =>
      refine ⟨p.1._pending_requests, ?_⟩
      rw [h2, h3, ho]
      simp
    | some r =>
      have hhead := h4 r ho
      cases hp : p.1._pending_requests with
      | nil => rw [hp] at hhead; simp at hhead
      | cons a l =>
        rw [hp] at hhead
        simp only [List.head?_cons, Option.some.injEq] at hhead
        refine ⟨l, ?_⟩
        rw [h2, h3, ho, hp, hhead]
        simp
  · constructor
    · intro hf
      rw [hf] at h1
      cases ho : p.1.ghost_outstanding with
      | none => rw [ho] at h1; simp at h1
      | some r => exact ⟨r, rfl, h4 r ho⟩
    · rintro ⟨r, ho, -⟩
      rw [h1, ho]
      simp

/-- Events driving the serializer: a dispatched publish write still in
flight when a ping is enqueued behind it. -/
def c5_events : List event :=
  [event.start, event.publish "t" (Json.num 1) none, event.ping_timer]

/-- The state and trace reached by `c5_events`. -/
def c5_pair : secure_client × List action :=
  (run init_client c5_events).getD (init_client, [])

/-- C5 witness: the serializer invariants at the concrete run `c5_events`. -/
theorem C5_witness :
    (∃ rest, c5_pair.1.ghost_enqueued = c5_pair.1.ghost_dispatched ++ rest)
    ∧ (c5_pair.1._request_in_flight = true ↔
        ∃ r, c5_pair.1.ghost_outstanding = some r
             ∧ c5_pair.1._pending_requests.head? = some r)
    ∧ c5_pair.1.ghost_enqueued = c5_pair.1.ghost_completed ++ c5_pair.1._pending_requests
    ∧ c5_pair.1.ghost_dispatched
        = c5_pair.1.ghost_completed ++ c5_pair.1.ghost_outstanding.toList :=
  C5_theorem c5_events c5_pair rfl

lemma filter_replay (l : List sub_slot) :
    (l.map replay_slot).filter raction.is_subscribe_act = l.map replay_slot := by
  induction l with
  | nil => rfl
  | cons x xs ih => cases x <;> simp [replay_slot, raction.is_subscribe_act, ih]

/-- C6: when the inner client reports an error while `_started` is true, the
resilient client creates a fresh inner client and starts it; on start success
it issues exactly one subscribe per desired-list entry, in insertion order
(the subscribe sub-trace is precisely `_subscriptions.map replay_slot`); on
start failure it surfaces the error to the outer sink and replays nothing. -/
theorem C6_theorem (r : resilient_client) (h : r._started = true) :
    resilient_on_error r true
      = (r, [raction.log "restarting rtm client because of error",
             raction.log "creating new client", raction.create_client,
             raction.log "starting new client", raction.start_client,
             raction.log "restoring subscriptions"]
            ++ r._subscriptions.map replay_slot
            ++ [raction.log "client restart done"])
    ∧ ((resilient_on_error r true).2.filter raction.is_subscribe_act)
        = r._subscriptions.map replay_slot
    ∧ resilient_on_error r false
      = (r, [raction.log "restarting rtm client because of error",
             raction.log "creating new client", raction.create_client,
             raction.log "starting new client", raction.start_client,
             raction.log "cannot restart client", raction.outer_on_error])
    ∧ ((resilient_on_error r false).2.any raction.is_subscribe_act) = false := by
  refine ⟨?_, ?_, ?_, ?_⟩ <;>
    simp [resilient_on_error, restart, h, raction.is_subscribe_act,
          List.filter_append, filter_replay]

/-- A started resilient client with desired list `["a", "b"]`. -/
def c6_client : resilient_client :=
  { _started := true,
    _subscriptions := [sub_slot.val ⟨"a", 1, 10, none, none⟩,
                       sub_slot.val ⟨"b", 2, 11, none, none⟩] }

/-- C6 witness: the restart behavior at the concrete client `c6_client`. -/
theorem C6_witness :
    resilient_on_error c6_client true
      = (c6_client, [raction.log "restarting rtm client because of error",
             raction.log "creating new client", raction.create_client,
             raction.log "starting new client", raction.start_client,
             raction.log "restoring subscriptions"]
            ++ c6_client._subscriptions.map replay_slot
            ++ [raction.log "client restart done"])
    ∧ ((resilient_on_error c6_client true).2.filter raction.is_subscribe_act)
        = c6_client._subscriptions.map replay_slot
    ∧ resilient_on_error c6_client false
      = (c6_client, [raction.log "restarting rtm client because of error",
             raction.log "creating new client", raction.create_client,
             raction.log "starting new client", raction.start_client,
             raction.log "cannot restart client", raction.outer_on_error])
    ∧ ((resilient_on_error c6_client false).2.any raction.is_subscribe_act) = false :=
  C6_theorem c6_client rfl

lemma drain_requests_subs (s : secure_client) :
    (drain_requests s).1._channel_subscriptions = s._channel_subscriptions :=
  (drain_requests_fields s).2.1

lemma drain_requests_infos (s : secure_client) :
    (drain_requests s).1._sent_request_infos = s._sent_request_infos :=
  (drain_requests_fields s).2.2.2.1

lemma drain_requests_counter (s : secure_client) :
    (drain_requests s).1.request_id_counter = s.request_id_counter :=
  (drain_requests_fields s).2.2.2.2.2.1

lemma drain_requests_enqueued (s : secure_client) :
    (drain_requests s).1.ghost_enqueued = s.ghost_enqueued :=
  (drain_requests_fields s).2.2.2.2.2.2.1

/-- C7: the subscribe PDU is `{action: "rtm/subscribe", id, body}` with
`body.channel = body.subscription_id = channel`; a `RUNNING` subscribe
enqueues the write of exactly this PDU under the freshly allocated id; with
history age 60 and count 5 the body is the claimed three-member object, and
with neither age nor count the body has no `history` member.  (nlohmann
objects are key-sorted maps, so member order in the equalities is sorted;
object equality is member-set equality.) -/
theorem C7_theorem :
    (∀ (id : Nat) (channel : String) (age count : Option Nat),
       (subscribe_to_json id channel age count).getKey "action"
           = some (Json.str "rtm/subscribe")
       ∧ (subscribe_to_json id channel age count).getKey "id" = some (Json.num id)
       ∧ ((subscribe_to_json id channel age count).getKey "body").bind
            (fun b => b.getKey "channel") = some (Json.str channel)
       ∧ ((subscribe_to_json id channel age count).getKey "body").bind
            (fun b => b.getKey "subscription_id") = some (Json.str channel))
    ∧ (∀ (s : secure_client) (channel : String) (sub data_callbacks : Nat)
         (callbacks : Option Nat) (options : Option subscription_options),
       s._client_state = client_state.RUNNING →
       (s._channel_subscriptions.any (fun d => d.channel == channel)) = false →
       (s._channel_subscriptions.any (fun d => d.sub == sub)) = false →
       (s._sent_request_infos.lookup s.request_id_counter) = none →
       (subscribe s channel sub data_callbacks callbacks options).map
           (fun p => p.1.ghost_enqueued)
         = some (s.ghost_enqueued
             ++ [io_request.write s.request_id_counter
                   (subscribe_to_json s.request_id_counter channel
                      (options.bind (fun o => o.age))
                      (options.bind (fun o => o.count)))]))
    ∧ (subscribe_to_json 2 "c" (some 60) (some 5)).getKey "body"
        = some (Json.obj [("channel", Json.str "c"),
                          ("history", Json.obj [("age", Json.num 60),
                                                ("count", Json.num 5)]),
                          ("subscription_id", Json.str "c")])
    ∧ (∀ (id : Nat) (channel : String),
         (subscribe_to_json id channel none none).getKey "body"
           = some (Json.obj [("channel", Json.str channel),
                             ("subscription_id", Json.str channel)])) := by
  refine ⟨?_, ?_, rfl, ?_⟩
  · intro id channel age count
    cases age <;> cases count <;> exact ⟨rfl, rfl, rfl, rfl⟩
  · intro s channel sub data_callbacks callbacks options h hch hsub hl
    unfold subscribe subs_add infos_emplace
    simp only [new_request_id, h, hch, hsub, hl]
    simp [client_write, push_request, drain_requests_enqueued]
  · intro id channel
    rfl

/-- C7 witness: the `RUNNING` enqueue conjunct at a concrete client and the
history options age 60, count 5. -/
theorem C7_witness :
    (subscribe running_client "c" 1 10 none
        (some { age := some 60, count := some 5 })).map
        (fun p => p.1.ghost_enqueued)
      = some (running_client.ghost_enqueued
          ++ [io_request.write running_client.request_id_counter
                (subscribe_to_json running_client.request_id_counter "c"
                   ((some { age := some 60, count := some 5 }
                       : Option subscription_options).bind (fun o => o.age))
                   ((some { age := some 60, count := some 5 }
                       : Option subscription_options).bind (fun o => o.count)))]) :=
  C7_theorem.2.1 running_client "c" 1 10 none
    (some { age := some 60, count := some 5 }) rfl rfl rfl rfl

/-- C8: `publish`, `subscribe` and `unsubscribe` are silent no-ops in
`PENDING_STOPPED` (state unchanged, only a log, no id allocated, nothing
enqueued, no callback); they are fatal (`CHECK_EQ` failure, modelled `none`)
in `STOPPED`; and in `RUNNING` they proceed, allocating the next id and
enqueueing one outbound request. -/
theorem C8_theorem :
    (∀ (s : secure_client) (channel : String) (message : Json) (callbacks : Option Nat),
       s._client_state = client_state.PENDING_STOPPED →
       publish s channel message callbacks
         = some (s, [action.log "RTM client is pending stop"]))
    ∧ (∀ (s : secure_client) (channel : String) (sub data_callbacks : Nat)
         (callbacks : Option Nat) (options : Option subscription_options),
       s._client_state = client_state.PENDING_STOPPED →
       subscribe s channel sub data_callbacks callbacks options
         = some (s, [action.log "RTM client is pending stop"]))
    ∧ (∀ (s : secure_client) (sub : Nat) (callbacks : Option Nat),
       s._client_state = client_state.PENDING_STOPPED →
       unsubscribe s sub callbacks
         = some (s, [action.log "RTM client is pending stop"]))
    ∧ (∀ (s : secure_client) (channel : String) (message : Json) (callbacks : Option Nat),
       s._client_state = client_state.STOPPED →
       publish s channel message callbacks = none)
    ∧ (∀ (s : secure_client) (channel : String) (sub data_callbacks : Nat)
         (callbacks : Option Nat) (options : Option subscription_options),
       s._client_state = client_state.STOPPED →
       subscribe s channel sub data_callbacks callbacks options = none)
    ∧ (∀ (s : secure_client) (sub : Nat) (callbacks : Option Nat),
       s._client_state = client_state.STOPPED →
       unsubscribe s sub callbacks = none)
    ∧ (∀ (s : secure_client) (channel : String) (message : Json) (callbacks : Option Nat),
       s._client_state = client_state.RUNNING →
       (s._sent_request_infos.lookup s.request_id_counter) = none →
       (publish s channel message callbacks).map
           (fun p => (p.1.request_id_counter, p.1.ghost_enqueued.length))
         = some ((s.request_id_counter + 1) % u64, s.ghost_enqueued.length + 1))
    ∧ (∀ (s : secure_client) (channel : String) (sub data_callbacks : Nat)
         (callbacks : Option Nat) (options : Option subscription_options),
       s._client_state = client_state.RUNNING →
       (s._channel_subscriptions.any (fun d => d.channel == channel)) = false →
       (s._channel_subscriptions.any (fun d => d.sub == sub)) = false →
       (s._sent_request_infos.lookup s.request_id_counter) = none →
       (subscribe s channel sub data_callbacks callbacks options).map
           (fun p => (p.1.request_id_counter, p.1.ghost_enqueued.length))
         = some ((s.request_id_counter + 1) % u64, s.ghost_enqueued.length + 1))
    ∧ (∀ (s : secure_client) (sub : Nat) (callbacks : Option Nat)
         (found : subscription_details),
       s._client_state = client_state.RUNNING →
       subs_find_by_sub s._channel_subscriptions sub = some found →
       (s._sent_request_infos.lookup s.request_id_counter) = none →
       (unsubscribe s sub callbacks).map
           (fun p => (p.1.request_id_counter, p.1.ghost_enqueued.length))
         = some ((s.request_id_counter + 1) % u64, s.ghost_enqueued.length + 1)) := by
  refine ⟨?_, ?_, ?_, ?_, ?_, ?_, ?_, ?_, ?_⟩
  · intro s channel message callbacks h
    simp [publish, h]
  · intro s channel sub data_callbacks callbacks options h
    simp [subscribe, h]
  · intro s sub callbacks h
    simp [unsubscribe, h]
  · intro s channel message callbacks h
    simp [publish, h]
  · intro s channel sub data_callbacks callbacks options h
    simp [subscribe, h]
  · intro s sub callbacks h
    simp [unsubscribe, h]
  · intro s channel message callbacks h hl
    unfold publish infos_emplace
    simp only [new_request_id, h, hl]
    simp [client_write, push_request, drain_requests_counter, drain_requests_enqueued]
  · intro s channel sub data_callbacks callbacks options h hch hsub hl
    unfold subscribe subs_add infos_emplace
    simp only [new_request_id, h, hch, hsub, hl]
    simp [client_write, push_request, drain_requests_counter, drain_requests_enqueued]
  · intro s sub callbacks found h hfound hl
    unfold unsubscribe infos_emplace
    simp only [new_request_id, h, hfound, hl]
    simp [client_write, push_request, drain_requests_counter, drain_requests_enqueued]

/-- A `RUNNING` client with one registered subscription and one pending
record, used to instantiate the state-gating claims. -/
def c8_state : secure_client :=
  { init_client with
    _client_state := client_state.RUNNING
    _channel_subscriptions := [⟨"c", 1, 10⟩]
    request_id_counter := 4 }

/-- The same client in `PENDING_STOPPED` and in `STOPPED`. -/
def c8_pending : secure_client :=
  { c8_state with _client_state := client_state.PENDING_STOPPED }

def c8_stopped : secure_client :=
  { c8_state with _client_state := client_state.STOPPED }

/-- C8 witness: the nine state-gating facts at concrete clients. -/
theorem C8_witness :
    publish c8_pending "t" (Json.num 1) none
      = some (c8_pending, [action.log "RTM client is pending stop"])
    ∧ subscribe c8_pending "t" 2 11 none none
      = some (c8_pending, [action.log "RTM client is pending stop"])
    ∧ unsubscribe c8_pending 1 none
      = some (c8_pending, [action.log "RTM client is pending stop"])
    ∧ publish c8_stopped "t" (Json.num 1) none = none
    ∧ subscribe c8_stopped "t" 2 11 none none = none
    ∧ unsubscribe c8_stopped 1 none = none
    ∧ (publish c8_state "t" (Json.num 1) none).map
        (fun p => (p.1.request_id_counter, p.1.ghost_enqueued.length))
      = some ((c8_state.request_id_counter + 1) % u64,
              c8_state.ghost_enqueued.length + 1)
    ∧ (subscribe c8_state "t" 2 11 none none).map
        (fun p => (p.1.request_id_counter, p.1.ghost_enqueued.length))
      = some ((c8_state.request_id_counter + 1) % u64,
              c8_state.ghost_enqueued.length + 1)
    ∧ (unsubscribe c8_state 1 none).map
        (fun p => (p.1.request_id_counter, p.1.ghost_enqueued.length))
      = some ((c8_state.request_id_counter + 1) % u64,
              c8_state.ghost_enqueued.length + 1) :=
  ⟨C8_theorem.1 c8_pending "t" (Json.num 1) none rfl,
   C8_theorem.2.1 c8_pending "t" 2 11 none none rfl,
   C8_theorem.2.2.1 c8_pending 1 none rfl,
   C8_theorem.2.2.2.1 c8_stopped "t" (Json.num 1) none rfl,
   C8_theorem.2.2.2.2.1 c8_stopped "t" 2 11 none none rfl,
   C8_theorem.2.2.2.2.2.1 c8_stopped 1 none rfl,
   C8_theorem.2.2.2.2.2.2.1 c8_state "t" (Json.num 1) none rfl rfl,
   C8_theorem.2.2.2.2.2.2.2.1 c8_state "t" 2 11 none none rfl rfl rfl rfl,
   C8_theorem.2.2.2.2.2.2.2.2 c8_state 1 none ⟨"c", 1, 10⟩ rfl rfl rfl⟩

lemma infos_lookup_append (t : List (Nat × sent_request_info)) (k : Nat)
    (v : sent_request_info) (h : t.lookup k = none) :
    (t ++ [(k, v)]).lookup k = some v := by
  induction t with
  | nil => simp [List.lookup]
  | cons p rest ih =>
    obtain ⟨k1, v1⟩ := p
    simp only [List.lookup, List.cons_append] at h ⊢
    cases hb : (k == k1)
    · simp only [hb] at h ⊢
      exact ih h
    · simp only [hb] at h
      exact Option.noConfusion h

lemma alloc_ids_eq_range' : ∀ (k c : Nat), c < u64 → c + k ≤ u64 →
    alloc_ids c k = List.range' c k := by
  intro k
  induction k with
  | zero => intro c h1 h2; rfl
  | succ k ih =>
    intro c h1 h2
    cases k with
    | zero => rfl
    | succ k2 =>
      have h3 : c + 1 < u64 := by omega
      have hmod : (c + 1) % u64 = c + 1 := Nat.mod_eq_of_lt h3
      have hrec := ih (c + 1) h3 (by omega)
      show (new_request_id c).1 :: alloc_ids (new_request_id c).2 (k2 + 1)
          = List.range' c (k2 + 2)
      rw [List.range'_succ]
      simp [new_request_id, hmod, hrec]

/-- C9: within one connection (whose allocations cannot exhaust the 64-bit
counter: `c + k ≤ 2^64`), consecutively allocated request ids are the
consecutive naturals from the counter, hence strictly increasing and
pairwise distinct; and from any `RUNNING` state whose pending-table keys are
all below the counter, `publish` succeeds and its record sits in the table
under the fresh id (the `CHECK(insert_result.second)` cannot fire). -/
theorem C9_theorem :
    (∀ (c k : Nat), c < u64 → c + k ≤ u64 → alloc_ids c k = List.range' c k)
    ∧ (∀ (c k : Nat), c < u64 → c + k ≤ u64 → (alloc_ids c k).Pairwise (· < ·))
    ∧ (∀ (c k : Nat), c < u64 → c + k ≤ u64 → (alloc_ids c k).Nodup)
    ∧ (∀ (s : secure_client) (channel : String) (message : Json) (callbacks : Option Nat),
       s._client_state = client_state.RUNNING →
       (∀ k, (s._sent_request_infos.lookup k).isSome = true →
          k < s.request_id_counter) →
       (publish s channel message callbacks).map
           (fun p => (p.1._sent_request_infos.lookup s.request_id_counter).isSome)
         = some true) := by
  refine ⟨fun c k h1 h2 => alloc_ids_eq_range' k c h1 h2, ?_, ?_, ?_⟩
  · intro c k h1 h2
    rw [alloc_ids_eq_range' k c h1 h2]
    exact List.pairwise_lt_range' c k
  · intro c k h1 h2
    rw [alloc_ids_eq_range' k c h1 h2]
    exact List.nodup_range' c k
  · intro s channel message callbacks h hfresh
    have hl : s._sent_request_infos.lookup s.request_id_counter = none := by
      cases hq : s._sent_request_infos.lookup s.request_id_counter with
      | none => rfl
      | some v =>
        have := hfresh s.request_id_counter (by rw [hq]; rfl)
        omega
    unfold publish infos_emplace
    simp only [new_request_id, h, hl]
    simp [client_write, push_request, drain_requests_infos,
          infos_lookup_append _ _ _ hl]

/-- C9 witness: three consecutive allocations from the initial counter, and a
successful insert from a concrete `RUNNING` client. -/
theorem C9_witness :
    alloc_ids 1 3 = List.range' 1 3
    ∧ (alloc_ids 1 3).Pairwise (· < ·)
    ∧ (alloc_ids 1 3).Nodup
    ∧ (publish running_client "t" (Json.num 1) none).map
        (fun p => (p.1._sent_request_infos.lookup
                     running_client.request_id_counter).isSome)
      = some true :=
  ⟨C9_theorem.1 1 3 (by norm_num [u64]) (by norm_num [u64]),
   C9_theorem.2.1 1 3 (by norm_num [u64]) (by norm_num [u64]),
   C9_theorem.2.2.1 1 3 (by norm_num [u64]) (by norm_num [u64]),
   C9_theorem.2.2.2 running_client "t" (Json.num 1) none rfl
     (by intro k hk; simp [running_client, init_client, List.lookup] at hk)⟩

/-- C10: when the transport write of a SUBSCRIBE request completes with an
error code, `handle_write` (run by `on_request_done` for the queue head)
erases the pending record and reports `SUBSCRIBE_ERROR` to the per-request
sink, while the registry keeps the optimistically inserted subscription
record untouched; consequently a later `subscribe` on a channel still in the
registry is a fatal duplicate-insertion (`CHECK` in `subscriptions_map::add`,
modelled `none`). -/
theorem C10_theorem :
    (∀ (s : secure_client) (request_id : Nat) (pdu : Json)
       (rest : List io_request) (val : io_request) (info : sent_request_info)
       (cb : Nat),
       s._pending_requests = io_request.write request_id pdu :: rest →
       s.ghost_outstanding = some val →
       s._sent_request_infos.lookup request_id = some info →
       info.type = request_type.SUBSCRIBE →
       info.callbacks = some cb →
       (on_request_done s asio_ec.error).map
           (fun p => (p.1._channel_subscriptions, p.1._sent_request_infos))
         = some (s._channel_subscriptions,
                 infos_erase s._sent_request_infos request_id)
       ∧ ∃ tail, (on_request_done s asio_ec.error).map (fun p => p.2)
           = some (action.log "write request failure"
                   :: action.metric_incr "rtm_client_error_publish"
                   :: action.on_req_error cb client_error.SUBSCRIBE_ERROR
                   :: tail))
    ∧ (∀ (s : secure_client) (channel : String) (sub data_callbacks : Nat)
         (callbacks : Option Nat) (options : Option subscription_options),
       s._client_state = client_state.RUNNING →
       (s._channel_subscriptions.any (fun d => d.channel == channel)) = true →
       subscribe s channel sub data_callbacks callbacks options = none) := by
  constructor
  · intro s request_id pdu rest val info cb hp ho hl ht hcb
    constructor
    · simp [on_request_done, ho, hp, request_done_cb, handle_write, hl, ht,
            drain_requests_subs, drain_requests_infos]
    · simp only [on_request_done, ho, hp, request_done_cb, handle_write, hl, ht,
                 hcb, req_error_acts]
      exact ⟨_, rfl⟩
  · intro s channel sub data_callbacks callbacks options h hdup
    unfold subscribe subs_add
    simp [h, hdup]

/-- A `RUNNING` client immediately after `subscribe("c")`: registry holds
`"c"`, the pending table holds the SUBSCRIBE record, and its write is the
outstanding head of the queue. -/
def c10_state : secure_client :=
  { init_client with
    _client_state := client_state.RUNNING
    _channel_subscriptions := [⟨"c", 1, 10⟩]
    _sent_request_infos := [(1, ⟨request_type.SUBSCRIBE, "c", Json.null, some 42⟩)]
    _pending_requests := [io_request.write 1 Json.null]
    _request_in_flight := true
    request_id_counter := 2
    ghost_outstanding := some (io_request.write 1 Json.null)
    ghost_enqueued := [io_request.write 1 Json.null]
    ghost_dispatched := [io_request.write 1 Json.null] }

/-- C10 witness: the failed subscribe write and the fatal duplicate subscribe
at the concrete client `c10_state`. -/
theorem C10_witness :
    ((on_request_done c10_state asio_ec.error).map
        (fun p => (p.1._channel_subscriptions, p.1._sent_request_infos))
      = some (c10_state._channel_subscriptions,
              infos_erase c10_state._sent_request_infos 1)
     ∧ ∃ tail, (on_request_done c10_state asio_ec.error).map (fun p => p.2)
         = some (action.log "write request failure"
                 :: action.metric_incr "rtm_client_error_publish"
                 :: action.on_req_error 42 client_error.SUBSCRIBE_ERROR
                 :: tail))
    ∧ subscribe c10_state "c" 2 11 none none = none :=
  ⟨C10_theorem.1 c10_state 1 Json.null [] (io_request.write 1 Json.null)
     ⟨request_type.SUBSCRIBE, "c", Json.null, some 42⟩ 42 rfl rfl rfl rfl rfl,
   C10_theorem.2 c10_state "c" 2 11 none none rfl rfl⟩

end Rtm
